import Mathlib

/-!
Verification of the natural-language specification of the vtk-examples
scripts `Froggie.py`, `PhysicallyBasedRendering.py` and
`PBR_Skybox_Texturing.py` against a shallow embedding of their code.

The scripts drive an external rendering toolkit; external calls (image
decoding, scene rendering) are modelled abstractly.  Everything the
claims observe — path and extension handling, the JSON parameter loader,
the error paths (modelled as `Except PyError`), print output (collected
as `List String`), the fixed lookup tables, the slider callbacks and the
screenshot callback — is translated directly from the Python source.
The filesystem is a parameter (`FS`) since the scripts only query
`is_file` / `is_dir`.
-/

/-- Python exception kinds reachable in the embedded code.  `exception`
is a `raise Exception(msg)`; the rest are builtin exception classes. -/
inductive PyError where
  | exception (msg : String)
  | fileNotFoundError
  | nameError (var : String)
  | keyError (k : String)
  | indexError
  | typeError
deriving DecidableEq, Repr

/-- The filesystem as the scripts observe it: `Path.is_file` and
`Path.is_dir` query results. -/
structure FS where
  isFile : String → Bool
  isDir : String → Bool

/-- Boolean success test, `Except.isOk` spelled out (avoids depending on library name). -/
def isOkE {ε α : Type} : Except ε α → Bool
  | .ok _ => true
  | .error _ => false

/-- View of `Except` as a sum, to derive decidable equality. -/
def exceptToSum {ε α : Type} : Except ε α → Sum ε α
  | .error e => .inl e
  | .ok a => .inr a

instance {ε α : Type} [DecidableEq ε] [DecidableEq α] : DecidableEq (Except ε α) :=
  fun a b =>
    decidable_of_iff (exceptToSum a = exceptToSum b)
      (by cases a <;> cases b <;> simp [exceptToSum])

/- ### Path helpers (embedding of the `pathlib` operations the scripts use) -/

/-- ASCII lower-casing, as `str.lower()` on the extensions used here. -/
def toLowerStr (s : String) : String := String.mk (s.data.map Char.toLower)

/-- The reversed characters of the final path component (`Path.name`). -/
def baseNameR (p : String) : List Char := p.data.reverse.takeWhile (fun c => c ≠ '/')

/-- Embedding of `Path.suffix`: the extension of the final component, including the
dot; empty when there is no dot, the name starts with the only dot, or
the name ends in a dot. -/
def pathSuffix (p : String) : String :=
  let rb := baseNameR p
  let pre := rb.takeWhile (fun c => c ≠ '.')
  match rb.dropWhile (fun c => c ≠ '.') with
  | [] => ("")
  | _ :: tail => if pre ≠ [] ∧ tail ≠ [] then String.mk ('.' :: pre.reverse) else ("")

/-- Embedding of `Path.with_suffix(ext)`: drop the current suffix and append `ext`. -/
def withSuffix (p ext : String) : String :=
  String.mk (p.data.take (p.data.length - (pathSuffix p).data.length)) ++ ext

/-- Path join, `parent / child` on paths. -/
def joinPath (parent child : String) : String := parent ++ ("/") ++ child

/-- Embedding of `Path.parent`: drop the final component ('.' when there is no
directory part, '/' when only the root remains). -/
def parentDir (p : String) : String :=
  match p.data.reverse.dropWhile (fun c => c ≠ '/') with
  | [] => (".")
  | [_] => ("/")
  | _ :: tail => String.mk tail.reverse

/-- Embedding of `Path(file_name).absolute()`: resolve against the working directory. -/
def absolutize (cwd fileName : String) : String :=
  if fileName.data.head? = some ('/') then fileName else joinPath cwd fileName

/- ### Froggie.py: SliceOrder, the frog LUT and the tissue map -/

/-- The transforms `SliceOrder` can build.  The claims only observe
which order codes are recognised, never the matrix contents, so the
transforms are represented by their tags (the matrices built in
`SliceOrder.__init__` are pure scene-graph configuration). -/
inductive SOTransform where
  | si | isOrder | ap | pa | lr | rl | hf
  | hfsi | hfis | hfap | hfpa | hflr | hfrl
deriving DecidableEq, Repr

/-- Embedding of `SliceOrder.get(order)`: dispatch on the order code; an unrecognised
code executes `raise Exception('No such transform "{:s}" exists.')`. -/
def SliceOrder.get (order : String) : Except String SOTransform :=
  if order = ("si") then .ok .si
  else if order = ("is") then .ok .isOrder
  else if order = ("ap") then .ok .ap
  else if order = ("pa") then .ok .pa
  else if order = ("lr") then .ok .lr
  else if order = ("rl") then .ok .rl
  else if order = ("hf") then .ok .hf
  else if order = ("hfsi") then .ok .hfsi
  else if order = ("hfis") then .ok .hfis
  else if order = ("hfap") then .ok .hfap
  else if order = ("hfpa") then .ok .hfpa
  else if order = ("hflr") then .ok .hflr
  else if order = ("hfrl") then .ok .hfrl
  else .error (("No such transform \"") ++ order ++ ("\" exists."))

/-- The order codes `SliceOrder.get` recognises. -/
def recognizedOrders : List String :=
  [("si"), ("is"), ("ap"), ("pa"), ("lr"), ("rl"), ("hf"),
   ("hfsi"), ("hfis"), ("hfap"), ("hfpa"), ("hflr"), ("hfrl")]

/-- One `SetTableValue` entry of the frog lookup table: either the
explicit RGBA quadruple or a named colour. -/
inductive LutEntry where
  | rgba (r g b a : ℚ)
  | named (colorName : String)
deriving DecidableEq, Repr

/-- The lookup table built by `create_frog_lut`. -/
structure FrogLut where
  numberOfColors : Nat
  tableRangeLo : Nat
  tableRangeHi : Nat
  tableValues : List (Nat × LutEntry)
deriving DecidableEq, Repr

/-- Embedding of `create_frog_lut()`: a 17-entry lookup table over range 0..16. -/
def create_frog_lut : FrogLut :=
  { numberOfColors := 17
    tableRangeLo := 0
    tableRangeHi := 16
    tableValues :=
      [(0, .rgba 0 0 0 0),
       (1, .named ("salmon")),
       (2, .named ("beige")),
       (3, .named ("orange")),
       (4, .named ("misty_rose")),
       (5, .named ("white")),
       (6, .named ("tomato")),
       (7, .named ("raspberry")),
       (8, .named ("banana")),
       (9, .named ("peru")),
       (10, .named ("pink")),
       (11, .named ("powder_blue")),
       (12, .named ("carrot")),
       (13, .named ("wheat")),
       (14, .named ("violet")),
       (15, .named ("plum")),
       (16, .named ("LimeGreen"))] }

/-- Embedding of `create_tissue_map()`: tissue name ↦ (lut index, transform code,
opacity). -/
def create_tissue_map : List (String × Nat × String × ℚ) :=
  [(("blood"), 1, ("is"), 1),
   (("brain"), 2, ("is"), 1),
   (("brainbin"), 2, ("is"), 1),
   (("duodenum"), 3, ("is"), 1),
   (("eye_retna"), 4, ("is"), 1),
   (("eye_white"), 5, ("is"), 1),
   (("heart"), 6, ("is"), 1),
   (("ileum"), 7, ("is"), 1),
   (("kidney"), 8, ("is"), 1),
   (("l_intestine"), 9, ("is"), 1),
   (("liver"), 10, ("is"), 1),
   (("lung"), 11, ("is"), 1),
   (("nerve"), 12, ("is"), 1),
   (("skeleton"), 13, ("is"), 1),
   (("spleen"), 14, ("is"), 1),
   (("stomach"), 15, ("is"), 1),
   (("skin"), 16, ("hfsi"), 0.4)]

/-- Embedding of `tm[tissue]`: dictionary lookup in the tissue map. -/
def lookupTissue : List (String × Nat × String × ℚ) → String → Option (Nat × String × ℚ)
  | [], _ => none
  | (k, e) :: rest, t => if k = t then some e else lookupTissue rest t

/-- Embedding of `'{:>Ns}'.format(s)`: right-justify to width `w`. -/
def rjust (s : String) (w : Nat) : String :=
  String.mk (List.replicate (w - s.length) (' ')) ++ s

/-- The per-tissue line appended to `res` in Froggie's `main`:
`'{:>11s}, label: {:2d}'.format(tissue, tm[tissue][0])`. -/
def froggieResLine (tissue : String) (lutIndex : Nat) : String :=
  rjust tissue 11 ++ (", label: ") ++ rjust (Nat.repr lutIndex) 2

/-- The tissue loop of Froggie's `main` (lines 19-35).  `sourceVar`
models the Python local variable `source`, which is only assigned inside
the `if path.is_dir():` block; referring to it while unassigned raises
`NameError`.  `create_frog_actor`'s call to `SliceOrder.get` can raise,
and `tm[tissue]` can raise `KeyError`.  Returns the `res` lines and the
collected prints. -/
def froggieLoop (fs : FS) (path : String) :
    List String → Option String → List String → List String →
    Except PyError (List String) × List String
  | [], _, res, prints => (.ok res, prints)
  | t :: rest, sourceVar, res, prints =>
    if fs.isDir path then
      let source := withSuffix (joinPath path t) (".vtk")
      if fs.isFile source then
        match lookupTissue create_tissue_map t with
        | none => (.error (PyError.keyError t), prints)
        | some entry =>
          match SliceOrder.get entry.2.1 with
          | .error m => (.error (PyError.exception m), prints)
          | .ok _ =>
            froggieLoop fs path rest (some source)
              (res ++ [froggieResLine t entry.1]) prints
      else
        froggieLoop fs path rest (some source) res
          (prints ++ [("The file: ") ++ source ++ (" does not exist.")])
    else
      match sourceVar with
      | none => (.error (PyError.nameError ("source")), prints)
      | some _ =>
        match lookupTissue create_tissue_map t with
        | none => (.error (PyError.keyError t), prints)
        | some entry =>
          match SliceOrder.get entry.2.1 with
          | .error m => (.error (PyError.exception m), prints)
          | .ok _ =>
            froggieLoop fs path rest sourceVar
              (res ++ [froggieResLine t entry.1]) prints

/-- The part of Froggie's `main` the error-handling claim observes:
the tissue loop, started with `res = ['Using the following tissues:']`
and the `source` variable unassigned. -/
def froggieMainRun (fs : FS) (dataFolder : String) (tissues : List String) :
    Except PyError (List String) × List String :=
  froggieLoop fs dataFolder tissues none [("Using the following tissues:")] []

/- ### PBR_Skybox_Texturing.py: JSON values and the parameter dictionary -/

/-- A JSON value as the parameter files use them: strings, booleans and
lists of strings (the cubemap). -/
inductive JValue where
  | s (v : String)
  | b (v : Bool)
  | l (v : List String)
deriving DecidableEq, Repr

/-- Python truthiness of a JSON value. -/
def JValue.truthy : JValue → Bool
  | .s v => v ≠ ("")
  | .b v => v
  | .l v => v ≠ []

/-- A value of the `parameters` dictionary `get_parameters` builds:
either a JSON value copied verbatim, a resolved path, or the resolved
cubemap path list. -/
inductive PValue where
  | s (v : String)
  | b (v : Bool)
  | l (v : List String)
  | path (p : String)
  | paths (ps : List String)
deriving DecidableEq, Repr

/-- Python truthiness of a parameter value (a `Path` is always truthy). -/
def PValue.truthy : PValue → Bool
  | .s v => v ≠ ("")
  | .b v => v
  | .l v => v ≠ []
  | .path _ => true
  | .paths ps => ps ≠ []

/-- Copying a JSON value verbatim into the parameter dictionary. -/
def copyJValue : JValue → PValue
  | .s v => .s v
  | .b v => .b v
  | .l v => .l v

/-- The parameter dictionary, in insertion order. -/
def Params := List (String × PValue)

/-- Embedding of `parameters[k] = v`: replace in place or append. -/
def setParam : List (String × PValue) → String → PValue → List (String × PValue)
  | [], k, v => [(k, v)]
  | (k2, v2) :: rest, k, v =>
    if k2 = k then (k, v) :: rest else (k2, v2) :: setParam rest k v

/-- Embedding of `parameters[k]` and `k in parameters`. -/
def getParam : List (String × PValue) → String → Option PValue
  | [], _ => none
  | (k2, v2) :: rest, k => if k2 = k then some v2 else getParam rest k

/-- The set `allowed_keys_no_paths` in `get_parameters`. -/
def allowed_keys_no_paths : List String :=
  [("object"), ("objcolor"), ("bkgcolor"), ("skybox")]

/-- The set `allowed_keys_paths` in `get_parameters`. -/
def allowed_keys_paths : List String :=
  [("cubemap"), ("equirectangular"), ("albedo"), ("normal"), ("material"),
   ("coat"), ("anisotropy"), ("emissive")]

/-- Iterating a JSON value as Python's `for`/`len`/indexing do in the
cubemap branch: a list yields its items, a string its characters, and
`len` of a boolean raises `TypeError`. -/
def cubemapItems : JValue → Except PyError (List String)
  | .l xs => .ok xs
  | .s str => .ok (str.data.map Char.toString)
  | .b _ => .error PyError.typeError

/-- The inner cubemap loop of `get_parameters` (lines 478-488).  Note
the faithful `print('Not a file:', cm[idx])`: `cm` holds only the
non-empty entries seen so far, so when an earlier entry was empty,
`cm[idx]` is out of range and raises `IndexError`. -/
def cubemapLoop (fs : FS) (parent : String) :
    List String → Nat → List String → Bool → List String →
    Except PyError (List String × Bool × List String)
  | [], _, cm, ok, prints => .ok (cm, ok, prints)
  | e :: rest, idx, cm, ok, prints =>
    if e = ("") then
      cubemapLoop fs parent rest (idx + 1) cm false
        (prints ++ [("A missing path in the cubemap.")])
    else
      let p := joinPath parent e
      let cm2 := cm ++ [p]
      if fs.isFile p then cubemapLoop fs parent rest (idx + 1) cm2 ok prints
      else
        match cm2[idx]? with
        | some q =>
          cubemapLoop fs parent rest (idx + 1) cm2 false
            (prints ++ [("Not a file: ") ++ q])
        | none => .error PyError.indexError

/-- The `for k, v in json_data.items()` loop of `get_parameters`
(lines 467-498): non-path keys are copied verbatim, path keys are
resolved against the JSON file's parent and existence-checked, other
keys are dropped. -/
def get_parameters_loop (fs : FS) (parent : String) :
    List (String × JValue) → List (String × PValue) → Bool → List String →
    Except PyError (List (String × PValue) × Bool × List String)
  | [], params, ok, prints => .ok (params, ok, prints)
  | (k, v) :: rest, params, ok, prints =>
    if k ∈ allowed_keys_no_paths then
      get_parameters_loop fs parent rest (setParam params k (copyJValue v)) ok prints
    else if k ∈ allowed_keys_paths then
      if k = ("cubemap") then
        match cubemapItems v with
        | .error e => .error e
        | .ok items =>
          if items.length ≠ 6 then
            get_parameters_loop fs parent rest
              (setParam params k (PValue.paths [])) false
              (prints ++ [("There must be six filenames for the cubemap.")])
          else
            match cubemapLoop fs parent items 0 [] ok prints with
            | .error e => .error e
            | .ok (cm, ok2, prints2) =>
              get_parameters_loop fs parent rest
                (setParam params k (PValue.paths cm)) ok2 prints2
      else
        match v with
        | .s str =>
          if str = ("") then
            get_parameters_loop fs parent rest params false
              (prints ++ [("No path for the key ") ++ k])
          else
            let p := joinPath parent str
            if fs.isFile p || fs.isDir p then
              get_parameters_loop fs parent rest
                (setParam params k (PValue.path p)) ok prints
            else
              get_parameters_loop fs parent rest
                (setParam params k (PValue.path p)) false
                (prints ++ [("Not a file or path: ") ++ p])
        | .b bv =>
          if bv then .error PyError.typeError
          else
            get_parameters_loop fs parent rest params false
              (prints ++ [("No path for the key ") ++ k])
        | .l xs =>
          if xs = [] then
            get_parameters_loop fs parent rest params false
              (prints ++ [("No path for the key ") ++ k])
          else .error PyError.typeError
    else
      get_parameters_loop fs parent rest params ok prints

/-- The object defaulting at the end of `get_parameters`
(lines 501-504): default to `'Boy'` when the object entry is missing or
falsy, then let a non-empty `surface_name` override it. -/
def apply_object_default (params : List (String × PValue)) (surfaceName : String) :
    List (String × PValue) :=
  let params1 :=
    match getParam params ("object") with
    | some v => if v.truthy = false then setParam params ("object") (PValue.s ("Boy")) else params
    | none => setParam params ("object") (PValue.s ("Boy"))
  if surfaceName ≠ ("") then setParam params1 ("object") (PValue.s surfaceName) else params1

/-- Embedding of `get_parameters(fn_path, surface_name)`: opens the JSON file (which
raises `FileNotFoundError` when it does not exist), runs the key loop,
then applies the object default/override.  `content` gives the parsed
JSON object of each file. -/
def get_parameters (fs : FS) (content : String → List (String × JValue))
    (fnPath surfaceName : String) :
    Except PyError (Bool × List (String × PValue) × List String) :=
  if fs.isFile fnPath then
    match get_parameters_loop fs (parentDir fnPath) (content fnPath) [] true [] with
    | .error e => .error e
    | .ok (params, ok, prints) => .ok (ok, apply_object_default params surfaceName, prints)
  else .error PyError.fileNotFoundError

/-- The path `fn_path` as computed at the top of `main` (lines 104-106): append
`.json` when the given name has no suffix. -/
def jsonPathOf (fn : String) : String :=
  if pathSuffix fn = ("") then withSuffix fn (".json") else fn

/-- Lines 104-111 of `main` in PBR_Skybox_Texturing.py: build the JSON
path, print `'Unable to find: '` (with `print`'s separator space) when
it is not a file, then call `get_parameters` regardless — so a missing
file still gets opened and raises. -/
def pbr_main_load (fs : FS) (content : String → List (String × JValue))
    (fn surfaceName : String) :
    Except PyError (Bool × List (String × PValue)) × List String :=
  let fnPath := jsonPathOf fn
  let prints0 := if fs.isFile fnPath then [] else [("Unable to find:  ") ++ fnPath]
  match get_parameters fs content fnPath surfaceName with
  | .error e => (.error e, prints0)
  | .ok (ok, params, prints) => (.ok (ok, params), prints0 ++ prints)

/- ### Textures -/

/-- A texture as the scripts build one: the image path it is wired to
and whether `InterpolateOn` was called (the only visible difference
between `read_texture` and `get_texture`).  Decoding is external. -/
structure Texture where
  source : String
  interpolate : Bool
deriving DecidableEq, Repr

/-- The `valid_extensions` list shared by `get_texture`
(PhysicallyBasedRendering.py line 291) and `read_texture`
(PBR_Skybox_Texturing.py line 634). -/
def valid_extensions : List String :=
  [(".jpg"), (".png"), (".bmp"), (".tiff"), (".pnm"), (".pgm"), (".ppm")]

/-- Embedding of `read_texture(image_path)` in PBR_Skybox_Texturing.py: reject a
suffix outside `valid_extensions` with a print and `None`, otherwise
build the texture (no existence check). -/
def read_texture (imagePath : String) : Option Texture × List String :=
  let suffix := toLowerStr (pathSuffix imagePath)
  if (valid_extensions.contains suffix) = false then
    (none, [("Unable to read the texture file (wrong extension): ") ++ imagePath])
  else (some { source := imagePath, interpolate := true }, [])

/-- Embedding of `get_texture(image_path)` in PhysicallyBasedRendering.py: first the
existence check, then the extension check, then the texture. -/
def get_texture (fs : FS) (imagePath : String) : Option Texture × List String :=
  if fs.isFile imagePath = false then
    (none, [("Nonexistent texture file: ") ++ imagePath])
  else
    let extension := toLowerStr (pathSuffix imagePath)
    if (valid_extensions.contains extension) = false then
      (none, [("Unable to read the texture file (wrong extension): ") ++ imagePath])
    else (some { source := imagePath, interpolate := false }, [])

/-- Embedding of `check_for_missing_textures(parameters, wanted_textures)`: report
every wanted key that is absent or has a falsy value; `True` only when
all are present. -/
def check_for_missing_textures (parameters : List (String × PValue)) :
    List String → Bool × List String
  | [] => (true, [])
  | t :: rest =>
    let r := check_for_missing_textures parameters rest
    match getParam parameters t with
    | none => (false, (("Missing texture: ") ++ t) :: r.2)
    | some v => if v.truthy then r else (false, (("No texture path for: ") ++ t) :: r.2)

/- ### vtk_version_ok -/

/-- The version encoding used by `vtk_version_ok` in both rendering
scripts. -/
def encode_vtk_version (major minor build : Nat) : Nat :=
  10000000000 * major + 100000000 * minor + build

/-- Embedding of `vtk_version_ok(major, minor, build)`, parameterised by the
installed library's encoded version number (`VTK_VERSION_NUMBER`). -/
def vtk_version_ok (vtkVersionNumber major minor build : Nat) : Bool :=
  if encode_vtk_version major minor build ≤ vtkVersionNumber then true else false

/- ### Surface selection -/

/-- The mesh sources `main` can build. -/
inductive Surface where
  | boy | mobius | randomhills | torus | sphere | clippedsphere | cube | clippedcube
deriving DecidableEq, Repr

/-- The set `available_surfaces` in PhysicallyBasedRendering.py `main` (line 72). -/
def available_surfaces_pbr : List String :=
  [("boy"), ("mobius"), ("randomhills"), ("torus"), ("sphere"), ("cube")]

/-- The set `available_surfaces` in PBR_Skybox_Texturing.py `main` (line 165). -/
def available_surfaces_skybox : List String :=
  [("boy"), ("mobius"), ("randomhills"), ("torus"), ("sphere"),
   ("clippedsphere"), ("cube"), ("clippedcube")]

/-- Surface selection in PhysicallyBasedRendering.py `main`
(lines 71-86): lower-case, fall back to `'boy'` outside the available
set, then dispatch. -/
def choose_surface_pbr (surface : String) : Surface :=
  let s0 := toLowerStr surface
  let s := if (available_surfaces_pbr.contains s0) = false then ("boy") else s0
  if s = ("mobius") then .mobius
  else if s = ("randomhills") then .randomhills
  else if s = ("torus") then .torus
  else if s = ("sphere") then .sphere
  else if s = ("cube") then .cube
  else .boy

/-- Surface selection in PBR_Skybox_Texturing.py `main`
(lines 164-183). -/
def choose_surface_skybox (surface : String) : Surface :=
  let s0 := toLowerStr surface
  let s := if (available_surfaces_skybox.contains s0) = false then ("boy") else s0
  if s = ("mobius") then .mobius
  else if s = ("randomhills") then .randomhills
  else if s = ("torus") then .torus
  else if s = ("sphere") then .sphere
  else if s = ("clippedsphere") then .clippedsphere
  else if s = ("cube") then .cube
  else if s = ("clippedcube") then .clippedcube
  else .boy

/- ### Slider callbacks -/

/-- The `vtkProperty` fields the scripts configure on the actor.  Colour
triples and scalar coefficients are rationals; textures are optional. -/
structure VtkProperty where
  interpolationPBR : Bool
  color : ℚ × ℚ × ℚ
  diffuse : ℚ
  roughness : ℚ
  metallic : ℚ
  occlusionStrength : ℚ
  normalScale : ℚ
  emissiveFactor : ℚ × ℚ × ℚ
  baseColorTexture : Option Texture
  ormTexture : Option Texture
  emissiveTexture : Option Texture
  normalTexture : Option Texture
  specular : ℚ
  specularPower : ℚ
  opacity : ℚ
  diffuseColor : ℚ × ℚ × ℚ
deriving DecidableEq, Repr

/-- Embedding of `SliderCallbackMetallic.__call__`: `SetMetallic(value)` on the
stored actor property (identical in both rendering scripts). -/
def sliderCallbackMetallic (actorProperty : VtkProperty) (value : ℚ) : VtkProperty :=
  { actorProperty with metallic := value }

/-- Embedding of `SliderCallbackRoughness.__call__`: `SetRoughness(value)`. -/
def sliderCallbackRoughness (actorProperty : VtkProperty) (value : ℚ) : VtkProperty :=
  { actorProperty with roughness := value }

/-- Embedding of `SliderCallbackOcclusionStrength.__call__`: `SetOcclusionStrength(value)`. -/
def sliderCallbackOcclusionStrength (actorProperty : VtkProperty) (value : ℚ) : VtkProperty :=
  { actorProperty with occlusionStrength := value }

/-- Embedding of `SliderCallbackNormalScale.__call__`: `SetNormalScale(value)`. -/
def sliderCallbackNormalScale (actorProperty : VtkProperty) (value : ℚ) : VtkProperty :=
  { actorProperty with normalScale := value }

/- ### PrintCallback (the screenshot key callback) -/

/-- The image writer chosen for the screenshot. -/
inductive ImgWriter where
  | jpeg | png
deriving DecidableEq, Repr

/-- The state `PrintCallback.__init__` stores. -/
structure PrintCallbackSt where
  path : Option String
  suffix : String
  initPrints : List String
deriving DecidableEq, Repr

/-- The list `valid_suffixes` in `PrintCallback.__init__` (line 1047). -/
def valid_suffixes : List String := [(".jpeg"), (".jpg"), (".png")]

/-- Embedding of `PrintCallback.__init__(caller, file_name, ...)` (lines 1029-1055):
an empty name leaves no path; otherwise absolutise, lower-case the
suffix, default a missing or invalid suffix to `.png`, and store the
path rewritten with that suffix. -/
def printCallbackInit (cwd fileName : String) : PrintCallbackSt :=
  if fileName = ("") then
    { path := none, suffix := (""), initPrints := [("A file name is required.")] }
  else
    let pth := absolutize cwd fileName
    let ext0 := if pathSuffix pth ≠ ("") then toLowerStr (pathSuffix pth) else (".png")
    let ext := if ext0 ∈ valid_suffixes then ext0 else (".png")
    { path := some (withSuffix pth ext), suffix := ext, initPrints := [] }

/-- Embedding of `PrintCallback.__call__(caller, ev)` (lines 1057-1080): write the
screenshot only when the key code is `'k'`, choosing the JPEG writer for
a `.jpeg`/`.jpg` stored suffix and the PNG writer otherwise.  Returns
the write performed (writer and file) and the prints. -/
def printCallbackCall (st : PrintCallbackSt) (keyCode : String) :
    Option (ImgWriter × String) × List String :=
  match st.path with
  | none => (none, [("A file name is required.")])
  | some p =>
    if keyCode = ("k") then
      let w := if st.suffix = (".jpeg") ∨ st.suffix = (".jpg") then ImgWriter.jpeg else ImgWriter.png
      (some (w, p), [("Screenshot saved to: ") ++ p])
    else (none, [])

/- ### Spec-side definitions for the valid-parameter-file claim -/

/-- Written from the claim's words: a parameter-file entry is valid when
a path-valued key names existing files — for `cubemap`, a list of six
non-empty entries each resolving to a file; for the other path keys, a
non-empty string resolving to a file or directory.  Non-path keys are
unconstrained. -/
def validEntry (fs : FS) (parent k : String) (v : JValue) : Bool :=
  if k ∈ allowed_keys_paths then
    if k = ("cubemap") then
      match v with
      | .l xs => (xs.length == 6) && xs.all (fun x => (x != ("")) && fs.isFile (joinPath parent x))
      | _ => false
    else
      match v with
      | .s str => (str != ("")) && (fs.isFile (joinPath parent str) || fs.isDir (joinPath parent str))
      | _ => false
  else true

/-- Written from the claim's words: a valid parameter file exists and
all of its entries are valid. -/
def validParamFile (fs : FS) (fnPath : String) (items : List (String × JValue)) : Bool :=
  fs.isFile fnPath && items.all (fun kv => validEntry fs (parentDir fnPath) kv.1 kv.2)

/-- The cubemap entries of a JSON value (spec side). -/
def cubemapStrings : JValue → List String
  | .l xs => xs
  | _ => []

/-- The string of a JSON value (spec side). -/
def jstringOf : JValue → String
  | .s str => str
  | _ => ("")

/-- Written from the claim's words: the dictionary a valid parameter
file is expected to produce — non-path keys copied verbatim, path keys
resolved against the parent directory, other keys dropped. -/
def expectedCore (parent : String) :
    List (String × JValue) → List (String × PValue) → List (String × PValue)
  | [], acc => acc
  | (k, v) :: rest, acc =>
    if k ∈ allowed_keys_no_paths then
      expectedCore parent rest (setParam acc k (copyJValue v))
    else if k ∈ allowed_keys_paths then
      if k = ("cubemap") then
        expectedCore parent rest
          (setParam acc k (PValue.paths ((cubemapStrings v).map (joinPath parent))))
      else
        expectedCore parent rest (setParam acc k (PValue.path (joinPath parent (jstringOf v))))
    else expectedCore parent rest acc

/-- Written from the claim's words: the full expected dictionary — the
core translation, an `object` entry defaulting to `'Boy'` when the JSON
omits or leaves empty the object entry, and a non-empty `surface_name`
overriding the object entry. -/
def expectedParameters (parent surfaceName : String) (items : List (String × JValue)) :
    List (String × PValue) :=
  let core := expectedCore parent items []
  let withObject :=
    match getParam core ("object") with
    | none => setParam core ("object") (PValue.s ("Boy"))
    | some v => if v.truthy then core else setParam core ("object") (PValue.s ("Boy"))
  if surfaceName = ("") then withObject
  else setParam withObject ("object") (PValue.s surfaceName)

/- ### Concrete fixtures used by witnesses and counterexamples -/

/-- A filesystem with no files and no directories. -/
def fsEmpty : FS := { isFile := fun _ => false, isDir := fun _ => false }

/-- JSON content map with no parsed files. -/
def contentEmpty : String → List (String × JValue) := fun _ => []

/-- Filesystem for the cubemap IndexError scenario: the parameter file
and four of the cubemap images exist, `missing.jpg` does not. -/
def fsCubemapBug : FS :=
  { isFile := fun p =>
      List.contains
        [("data/params.json"), ("data/a.jpg"), ("data/b.jpg"), ("data/c.jpg"),
         ("data/d.jpg")] p
    isDir := fun _ => false }

/-- The parameter file of the cubemap IndexError scenario: an empty
first entry followed by a non-existent file. -/
def contentCubemapBug : String → List (String × JValue) := fun p =>
  if p = ("data/params.json") then
    [(("cubemap"),
      JValue.l [(""), ("missing.jpg"), ("a.jpg"), ("b.jpg"), ("c.jpg"), ("d.jpg")])]
  else []

/-- A filesystem containing exactly one HDR file. -/
def fsHdr : FS :=
  { isFile := fun p => p == ("textures/env.hdr"), isDir := fun _ => false }

/-- A filesystem containing exactly one PNG file. -/
def fsPng : FS :=
  { isFile := fun p => p == ("img.png"), isDir := fun _ => false }

/-- A parameter dictionary with a present path, an empty entry, and the
`material` and `emissive` keys missing. -/
def paramsMissing : List (String × PValue) :=
  [(("albedo"), PValue.path ("d/alb.png")), (("normal"), PValue.s (""))]

/-- The wanted textures list `main` passes to
`check_for_missing_textures`. -/
def wantedTextures : List String :=
  [("albedo"), ("normal"), ("material"), ("emissive")]

/-- A filesystem holding a fully valid parameter file's targets. -/
def fsValid : FS :=
  { isFile := fun p =>
      List.contains
        [("d/p.json"), ("d/px.jpg"), ("d/nx.jpg"), ("d/py.jpg"), ("d/ny.jpg"),
         ("d/pz.jpg"), ("d/nz.jpg"), ("d/alb.png"), ("d/nor.png"), ("d/mat.png"),
         ("d/emi.png")] p
    isDir := fun _ => false }

/-- A fully valid parameter file: verbatim keys, a six-entry cubemap of
existing files, four texture paths, and one unknown key. -/
def contentValid : String → List (String × JValue) := fun p =>
  if p = ("d/p.json") then
    [(("object"), JValue.s ("Torus")),
     (("skybox"), JValue.b true),
     (("extra"), JValue.s ("dropped")),
     (("cubemap"),
      JValue.l [("px.jpg"), ("nx.jpg"), ("py.jpg"), ("ny.jpg"), ("pz.jpg"), ("nz.jpg")]),
     (("albedo"), JValue.s ("alb.png")),
     (("normal"), JValue.s ("nor.png")),
     (("material"), JValue.s ("mat.png")),
     (("emissive"), JValue.s ("emi.png"))]
  else []

/- ### Theorems -/

/-- Claim C6: every entry of the fixed tissue lookup table is a triple
whose colour index is a valid index of the 17-entry frog lookup table,
whose transform code is recognised by `SliceOrder.get` (so looking it up
never raises), and whose opacity lies in the interval [0, 1]. -/
theorem tissue_map_well_formed :
    ∀ e ∈ create_tissue_map,
      e.2.1 < create_frog_lut.numberOfColors ∧
      isOkE (SliceOrder.get e.2.2.1) = true ∧
      0 ≤ e.2.2.2 ∧ e.2.2.2 ≤ 1 := by
  intro e he
  simp only [create_tissue_map, List.mem_cons, List.not_mem_nil, or_false] at he
  rcases he with rfl | rfl | rfl | rfl | rfl | rfl | rfl | rfl | rfl | rfl | rfl | rfl |
    rfl | rfl | rfl | rfl | rfl <;>
    exact ⟨by norm_num [create_frog_lut], by decide, by norm_num, by norm_num⟩

/-- Witness for C6: the tissue map contains the skin entry, and the
well-formedness facts hold for it. -/
theorem tissue_map_well_formed_witness :
    (((("skin") : String), (16 : Nat), (("hfsi") : String), (0.4 : ℚ)) ∈ create_tissue_map) ∧
    (16 < create_frog_lut.numberOfColors ∧
     isOkE (SliceOrder.get ("hfsi")) = true ∧
     (0 : ℚ) ≤ 0.4 ∧ (0.4 : ℚ) ≤ 1) :=
  ⟨by simp [create_tissue_map],
   tissue_map_well_formed ((("skin"), 16, ("hfsi"), (0.4 : ℚ)))
     (by simp [create_tissue_map])⟩

/-- Claim C8: each slider callback sets exactly the one material
property it is named after to the slider value and leaves every other
field of the actor property unchanged. -/
theorem slider_callbacks_mutate_single_property :
    ∀ (p : VtkProperty) (value : ℚ),
      ((sliderCallbackMetallic p value).metallic = value ∧
       sliderCallbackMetallic p value = { p with metallic := value } ∧
       (sliderCallbackMetallic p value).roughness = p.roughness ∧
       (sliderCallbackMetallic p value).occlusionStrength = p.occlusionStrength ∧
       (sliderCallbackMetallic p value).normalScale = p.normalScale) ∧
      ((sliderCallbackRoughness p value).roughness = value ∧
       sliderCallbackRoughness p value = { p with roughness := value } ∧
       (sliderCallbackRoughness p value).metallic = p.metallic ∧
       (sliderCallbackRoughness p value).occlusionStrength = p.occlusionStrength ∧
       (sliderCallbackRoughness p value).normalScale = p.normalScale) ∧
      ((sliderCallbackOcclusionStrength p value).occlusionStrength = value ∧
       sliderCallbackOcclusionStrength p value = { p with occlusionStrength := value } ∧
       (sliderCallbackOcclusionStrength p value).metallic = p.metallic ∧
       (sliderCallbackOcclusionStrength p value).roughness = p.roughness ∧
       (sliderCallbackOcclusionStrength p value).normalScale = p.normalScale) ∧
      ((sliderCallbackNormalScale p value).normalScale = value ∧
       sliderCallbackNormalScale p value = { p with normalScale := value } ∧
       (sliderCallbackNormalScale p value).metallic = p.metallic ∧
       (sliderCallbackNormalScale p value).roughness = p.roughness ∧
       (sliderCallbackNormalScale p value).occlusionStrength = p.occlusionStrength) :=
  fun _ _ =>
    ⟨⟨rfl, rfl, rfl, rfl, rfl⟩, ⟨rfl, rfl, rfl, rfl, rfl⟩,
     ⟨rfl, rfl, rfl, rfl, rfl⟩, ⟨rfl, rfl, rfl, rfl, rfl⟩⟩

/-- Claim C9: surface selection is total — any requested surface string
whose lower-casing is outside the available-surfaces set of the script
silently falls back to the Boy surface. -/
theorem unknown_surface_falls_back_to_boy :
    ∀ s : String,
      ((available_surfaces_pbr.contains (toLowerStr s)) = false →
        choose_surface_pbr s = Surface.boy) ∧
      ((available_surfaces_skybox.contains (toLowerStr s)) = false →
        choose_surface_skybox s = Surface.boy) := by
  intro s
  constructor
  · intro h
    simp only [choose_surface_pbr]
    rw [if_pos h]
    decide
  · intro h
    simp only [choose_surface_skybox]
    rw [if_pos h]
    decide

/-- Witness for C9: `'Frog'` is in neither available-surfaces set and
both scripts select the Boy surface for it. -/
theorem unknown_surface_falls_back_to_boy_witness :
    (available_surfaces_pbr.contains (toLowerStr ("Frog")) = false ∧
     choose_surface_pbr ("Frog") = Surface.boy) ∧
    (available_surfaces_skybox.contains (toLowerStr ("Frog")) = false ∧
     choose_surface_skybox ("Frog") = Surface.boy) :=
  ⟨⟨by decide, (unknown_surface_falls_back_to_boy ("Frog")).1 (by decide)⟩,
   ⟨by decide, (unknown_surface_falls_back_to_boy ("Frog")).2 (by decide)⟩⟩

/-- Claim C10: `vtk_version_ok` returns `True` exactly when the
installed encoded version is at least `10000000000*major +
100000000*minor + build`, and is therefore antitone in the requested
version. -/
theorem vtk_version_ok_encoding_antitone :
    ∀ n major minor build : Nat,
      (vtk_version_ok n major minor build = true ↔
        encode_vtk_version major minor build ≤ n) ∧
      (∀ major2 minor2 build2 : Nat,
        encode_vtk_version major2 minor2 build2 ≤ encode_vtk_version major minor build →
        vtk_version_ok n major minor build = true →
        vtk_version_ok n major2 minor2 build2 = true) := by
  intro n major minor build
  constructor
  · by_cases h : encode_vtk_version major minor build ≤ n <;> simp [vtk_version_ok, h]
  · intro major2 minor2 build2 hle hok
    have h1 : encode_vtk_version major minor build ≤ n := by
      by_cases h : encode_vtk_version major minor build ≤ n
      · exact h
      · simp [vtk_version_ok, h] at hok
    simp [vtk_version_ok, le_trans hle h1]

/-- Witness for C10: with an installed encoding for version 9.2.0,
the check passes for the requested versions 9.0.0 and 8.90.0, the
latter obtained by antitonicity. -/
theorem vtk_version_ok_encoding_antitone_witness :
    (vtk_version_ok 92000000000 9 0 0 = true ↔ encode_vtk_version 9 0 0 ≤ 92000000000) ∧
    (encode_vtk_version 8 90 0 ≤ encode_vtk_version 9 0 0 ∧
     vtk_version_ok 92000000000 9 0 0 = true ∧
     vtk_version_ok 92000000000 8 90 0 = true) :=
  ⟨(vtk_version_ok_encoding_antitone 92000000000 9 0 0).1,
   ⟨by decide, by decide,
    (vtk_version_ok_encoding_antitone 92000000000 9 0 0).2 8 90 0 (by decide) (by decide)⟩⟩

/-- Counterexample for C1: an unknown slice-order code does not produce
a printed message and an early return — `SliceOrder.get('bogus')`
raises `Exception('No such transform "bogus" exists.')`. -/
theorem slice_order_unknown_code_raises :
    isOkE (SliceOrder.get ("bogus")) = false ∧
    SliceOrder.get ("bogus") = .error ("No such transform \"bogus\" exists.") :=
  ⟨by decide, by decide⟩

/-- Counterexample for C3: `.hdr` is not accepted by the texture
loaders — for an existing `.hdr` file both `get_texture` and
`read_texture` print the wrong-extension message and return `None`. -/
theorem hdr_texture_rejected :
    fsHdr.isFile ("textures/env.hdr") = true ∧
    get_texture fsHdr ("textures/env.hdr") =
      (none, [("Unable to read the texture file (wrong extension): textures/env.hdr")]) ∧
    read_texture ("textures/env.hdr") =
      (none, [("Unable to read the texture file (wrong extension): textures/env.hdr")]) :=
  ⟨by decide, by decide, by decide⟩

/-- Claim C4 (code-bug evaluation): on a cubemap list with an empty
first entry followed by a non-existent file, `get_parameters` raises
`IndexError` (the error print indexes `cm[idx]`, but `cm` holds only the
non-empty entries appended so far) instead of printing and returning
`paths_ok = False`. -/
theorem cubemap_error_print_raises_index_error :
    get_parameters fsCubemapBug contentCubemapBug ("data/params.json") ("") =
      .error PyError.indexError := by decide

/-- Claim C1 (amended): none of the three failure conditions is handled
by print-and-early-return — an unknown slice-order code makes
`SliceOrder.get` raise an Exception naming the code; a missing JSON
parameter file is reported with a printed message but `main` still calls
`get_parameters`, whose `open` raises `FileNotFoundError`; a data folder
that is not a directory makes Froggie's `main` raise `NameError` on the
unassigned `source` variable at the first tissue, with no print. -/
theorem failure_conditions_raise_exceptions :
    (∀ order : String, order ∉ recognizedOrders →
      SliceOrder.get order = .error (("No such transform \"") ++ order ++ ("\" exists."))) ∧
    (∀ (fs : FS) (content : String → List (String × JValue)) (fn surfaceName : String),
      fs.isFile (jsonPathOf fn) = false →
      pbr_main_load fs content fn surfaceName =
        (.error PyError.fileNotFoundError, [("Unable to find:  ") ++ jsonPathOf fn])) ∧
    (∀ (fs : FS) (dataFolder tissue : String) (rest : List String),
      fs.isDir dataFolder = false →
      froggieMainRun fs dataFolder (tissue :: rest) =
        (.error (PyError.nameError ("source")), [])) := by
  refine ⟨?_, ?_, ?_⟩
  · intro order h
    simp only [recognizedOrders, List.mem_cons, List.not_mem_nil, or_false] at h
    push_neg at h
    obtain ⟨h1, h2, h3, h4, h5, h6, h7, h8, h9, h10, h11, h12, h13⟩ := h
    simp [SliceOrder.get, h1, h2, h3, h4, h5, h6, h7, h8, h9, h10, h11, h12, h13]
  · intro fs content fn surfaceName h
    simp [pbr_main_load, get_parameters, h]
  · intro fs dataFolder tissue rest h
    simp [froggieMainRun, froggieLoop, h]

/-- Witness for C1: the three exception-raising behaviours at concrete
inputs on an empty filesystem. -/
theorem failure_conditions_raise_exceptions_witness :
    ((("nope") ∉ recognizedOrders) ∧
     SliceOrder.get ("nope") = .error (("No such transform \"") ++ ("nope") ++ ("\" exists."))) ∧
    (fsEmpty.isFile (jsonPathOf ("params")) = false ∧
     pbr_main_load fsEmpty contentEmpty ("params") ("") =
       (.error PyError.fileNotFoundError, [("Unable to find:  ") ++ jsonPathOf ("params")])) ∧
    (fsEmpty.isDir ("frog_data") = false ∧
     froggieMainRun fsEmpty ("frog_data") [("skin")] =
       (.error (PyError.nameError ("source")), [])) :=
  ⟨⟨by decide, failure_conditions_raise_exceptions.1 ("nope") (by decide)⟩,
   ⟨rfl, failure_conditions_raise_exceptions.2.1 fsEmpty contentEmpty ("params") ("") rfl⟩,
   ⟨rfl, failure_conditions_raise_exceptions.2.2 fsEmpty ("frog_data") ("skin") [] rfl⟩⟩

/-- Claim C3 (amended): the texture loaders accept exactly the seven
extensions `.jpg/.png/.bmp/.tiff/.pnm/.pgm/.ppm` — not `.hdr`/`.pic`,
which only the equirectangular HDR path consumes.  `read_texture`
returns a texture for any path with an accepted lower-cased extension,
`get_texture` does so for existing files, and both print a message and
return `None` for any other extension. -/
theorem texture_extension_whitelist_exact :
    ((".hdr") ∉ valid_extensions ∧ (".pic") ∉ valid_extensions) ∧
    (∀ p : String, valid_extensions.contains (toLowerStr (pathSuffix p)) = true →
      read_texture p = (some { source := p, interpolate := true }, [])) ∧
    (∀ p : String, valid_extensions.contains (toLowerStr (pathSuffix p)) = false →
      read_texture p =
        (none, [("Unable to read the texture file (wrong extension): ") ++ p])) ∧
    (∀ (fs : FS) (p : String), fs.isFile p = true →
      valid_extensions.contains (toLowerStr (pathSuffix p)) = true →
      get_texture fs p = (some { source := p, interpolate := false }, [])) ∧
    (∀ (fs : FS) (p : String), fs.isFile p = true →
      valid_extensions.contains (toLowerStr (pathSuffix p)) = false →
      get_texture fs p =
        (none, [("Unable to read the texture file (wrong extension): ") ++ p])) := by
  refine ⟨⟨by decide, by decide⟩, ?_, ?_, ?_, ?_⟩
  · intro p h
    have hm : toLowerStr (pathSuffix p) ∈ valid_extensions := by simpa using h
    simp [read_texture, hm]
  · intro p h
    have hm : toLowerStr (pathSuffix p) ∉ valid_extensions := by simpa using h
    simp [read_texture, hm]
  · intro fs p h1 h2
    have hm : toLowerStr (pathSuffix p) ∈ valid_extensions := by simpa using h2
    simp [get_texture, h1, hm]
  · intro fs p h1 h2
    have hm : toLowerStr (pathSuffix p) ∉ valid_extensions := by simpa using h2
    simp [get_texture, h1, hm]

/-- Witness for C3: a `.png` file is accepted by both loaders and a
`.gif` path is rejected. -/
theorem texture_extension_whitelist_exact_witness :
    (valid_extensions.contains (toLowerStr (pathSuffix ("img.png"))) = true ∧
     read_texture ("img.png") = (some { source := ("img.png"), interpolate := true }, []) ∧
     fsPng.isFile ("img.png") = true ∧
     get_texture fsPng ("img.png") = (some { source := ("img.png"), interpolate := false }, [])) ∧
    (valid_extensions.contains (toLowerStr (pathSuffix ("img.gif"))) = false ∧
     read_texture ("img.gif") =
       (none, [("Unable to read the texture file (wrong extension): ") ++ ("img.gif")])) :=
  ⟨⟨by decide, texture_extension_whitelist_exact.2.1 ("img.png") (by decide), by decide,
    texture_extension_whitelist_exact.2.2.2.1 fsPng ("img.png") (by decide) (by decide)⟩,
   ⟨by decide, texture_extension_whitelist_exact.2.2.1 ("img.gif") (by decide)⟩⟩

/-- Claim C5: `check_for_missing_textures` returns `False` and prints a
message whenever any wanted texture key is absent or has a falsy value,
and `get_texture` prints a message and returns `None` whenever the path
does not name an existing file. -/
theorem missing_textures_reported :
    (∀ (parameters : List (String × PValue)) (wanted : List String) (t : String),
      t ∈ wanted →
      (getParam parameters t = none ∨
        ∃ v, getParam parameters t = some v ∧ v.truthy = false) →
      (check_for_missing_textures parameters wanted).1 = false ∧
      (check_for_missing_textures parameters wanted).2 ≠ []) ∧
    (∀ (fs : FS) (p : String), fs.isFile p = false →
      get_texture fs p = (none, [("Nonexistent texture file: ") ++ p])) := by
  constructor
  · intro parameters wanted t ht hbad
    induction wanted with
    | nil => cases ht
    | cons w rest ih =>
      rcases List.mem_cons.mp ht with rfl | hmem
      · rcases hbad with hn | ⟨v, hv, htr⟩
        · simp [check_for_missing_textures, hn]
        · simp [check_for_missing_textures, hv, htr]
      · obtain ⟨ih1, ih2⟩ := ih hmem
        cases hg : getParam parameters w with
        | none => simp [check_for_missing_textures, hg]
        | some v =>
          by_cases htr : v.truthy
          · simp only [check_for_missing_textures, hg, htr, if_true]
            exact ⟨ih1, ih2⟩
          · simp [check_for_missing_textures, hg, htr]
  · intro fs p h
    simp [get_texture, h]

/-- Witness for C5: with the `material` key absent from a parameter
dictionary, the check fails and prints, and a non-existent texture file
makes `get_texture` report and return `None`. -/
theorem missing_textures_reported_witness :
    ((("material") ∈ wantedTextures) ∧ getParam paramsMissing ("material") = none ∧
     (check_for_missing_textures paramsMissing wantedTextures).1 = false ∧
     (check_for_missing_textures paramsMissing wantedTextures).2 ≠ []) ∧
    (fsEmpty.isFile ("missing.png") = false ∧
     get_texture fsEmpty ("missing.png") =
       (none, [("Nonexistent texture file: ") ++ ("missing.png")])) :=
  ⟨⟨by decide, by decide,
    (missing_textures_reported.1 paramsMissing wantedTextures ("material")
      (by decide) (Or.inl (by decide))).1,
    (missing_textures_reported.1 paramsMissing wantedTextures ("material")
      (by decide) (Or.inl (by decide))).2⟩,
   ⟨rfl, missing_textures_reported.2 fsEmpty ("missing.png") rfl⟩⟩

/-- Claim C7: the screenshot is written only on key code `'k'`; for any
non-empty file name the stored suffix is normalised into
`.jpeg/.jpg/.png` (defaulting to `.png` when the name's lower-cased
suffix is absent or invalid), the output path is the name rewritten with
that suffix, and the JPEG writer is chosen exactly when the resulting
suffix is `.jpeg` or `.jpg`, the PNG writer otherwise. -/
theorem screenshot_only_on_k_with_normalized_suffix :
    ∀ cwd fileName : String, fileName ≠ ("") →
      ((printCallbackInit cwd fileName).suffix ∈ valid_suffixes) ∧
      ((pathSuffix (absolutize cwd fileName) = ("") ∨
        toLowerStr (pathSuffix (absolutize cwd fileName)) ∉ valid_suffixes) →
        (printCallbackInit cwd fileName).suffix = (".png")) ∧
      ((printCallbackInit cwd fileName).path =
        some (withSuffix (absolutize cwd fileName) (printCallbackInit cwd fileName).suffix)) ∧
      (∀ keyCode : String, keyCode ≠ ("k") →
        printCallbackCall (printCallbackInit cwd fileName) keyCode = (none, [])) ∧
      ((printCallbackCall (printCallbackInit cwd fileName) ("k")).1 =
        some ((if (printCallbackInit cwd fileName).suffix = (".jpeg") ∨
                  (printCallbackInit cwd fileName).suffix = (".jpg")
               then ImgWriter.jpeg else ImgWriter.png),
              withSuffix (absolutize cwd fileName) (printCallbackInit cwd fileName).suffix)) := by
  intro cwd fileName h
  simp only [printCallbackInit, if_neg h]
  refine ⟨?_, ?_, ?_, ?_, ?_⟩
  · by_cases hm : (if pathSuffix (absolutize cwd fileName) = ("") then (".png")
        else toLowerStr (pathSuffix (absolutize cwd fileName))) ∈ valid_suffixes
    · simp [hm]
    · simp [hm]
      decide
  · intro hor
    rcases hor with h1 | h2
    · simp [h1]
    · by_cases h1 : pathSuffix (absolutize cwd fileName) = ("")
      · simp [h1]
      · simp [h1, h2]
  · trivial
  · intro keyCode hk
    simp [printCallbackCall, hk]
  · simp [printCallbackCall]

/-- Witness for C7: for the suffix-less default name, the stored suffix
defaults to `.png` and a non-`'k'` key writes nothing. -/
theorem screenshot_only_on_k_with_normalized_suffix_witness :
    ((("PBR_Skybox_Texturing") : String) ≠ ("")) ∧
    (printCallbackInit ("/work") ("PBR_Skybox_Texturing")).suffix = (".png") ∧
    printCallbackCall (printCallbackInit ("/work") ("PBR_Skybox_Texturing")) ("j") = (none, []) :=
  ⟨by decide,
   (screenshot_only_on_k_with_normalized_suffix ("/work") ("PBR_Skybox_Texturing")
     (by decide)).2.1 (Or.inl (by decide)),
   (screenshot_only_on_k_with_normalized_suffix ("/work") ("PBR_Skybox_Texturing")
     (by decide)).2.2.2.1 ("j") (by decide)⟩

/-- Updating a key in the parameter dictionary makes it readable. -/
lemma getParam_setParam_self (ps : List (String × PValue)) (k : String) (v : PValue) :
    getParam (setParam ps k v) k = some v := by
  induction ps with
  | nil => simp [setParam, getParam]
  | cons kv rest ih =>
    obtain ⟨k2, v2⟩ := kv
    by_cases hk : k2 = k
    · simp [setParam, getParam, hk]
    · simp [setParam, getParam, hk, ih]

/-- The cubemap loop on six existing non-empty entries collects the
resolved paths without touching `paths_ok` or printing. -/
lemma cubemapLoop_all_files (fs : FS) (parent : String) :
    ∀ (xs : List String) (idx : Nat) (cm : List String) (ok : Bool) (prints : List String),
      (∀ x ∈ xs, x ≠ ("") ∧ fs.isFile (joinPath parent x) = true) →
      cubemapLoop fs parent xs idx cm ok prints =
        .ok (cm ++ xs.map (joinPath parent), ok, prints) := by
  intro xs
  induction xs with
  | nil =>
    intro idx cm ok prints _
    simp [cubemapLoop]
  | cons x rest ih =>
    intro idx cm ok prints hall
    obtain ⟨hx, hf⟩ := hall x (List.mem_cons_self x rest)
    have hrest : ∀ y ∈ rest, y ≠ ("") ∧ fs.isFile (joinPath parent y) = true :=
      fun y hy => hall y (List.mem_cons_of_mem x hy)
    simp only [cubemapLoop, if_neg hx, hf, if_true]
    rw [ih (idx + 1) (cm ++ [joinPath parent x]) ok prints hrest]
    simp

/-- The key loop of `get_parameters` on entirely valid entries performs
exactly the expected translation, leaving `paths_ok` and the prints
untouched. -/
lemma get_parameters_loop_all_valid (fs : FS) (parent : String) :
    ∀ (items : List (String × JValue)) (params : List (String × PValue))
      (ok : Bool) (prints : List String),
      (∀ kv ∈ items, validEntry fs parent kv.1 kv.2 = true) →
      get_parameters_loop fs parent items params ok prints =
        .ok (expectedCore parent items params, ok, prints) := by
  intro items
  induction items with
  | nil =>
    intro params ok prints _
    simp [get_parameters_loop, expectedCore]
  | cons kv rest ih =>
    obtain ⟨k, v⟩ := kv
    intro params ok prints hall
    have hkv := hall (k, v) (List.mem_cons_self _ _)
    have hrest := fun kv2 h2 => hall kv2 (List.mem_cons_of_mem _ h2)
    by_cases hnp : k ∈ allowed_keys_no_paths
    · simp only [get_parameters_loop, expectedCore, if_pos hnp]
      exact ih _ _ _ hrest
    · by_cases hp : k ∈ allowed_keys_paths
      · by_cases hcm : k = ("cubemap")
        · subst hcm
          cases v with
          | s str => simp [validEntry, hp] at hkv
          | b bv => simp [validEntry, hp] at hkv
          | l xs =>
            simp [validEntry, hp] at hkv
            obtain ⟨hlen, hxs0⟩ := hkv
            have hxs2 : ∀ x ∈ xs, x ≠ ("") ∧ fs.isFile (joinPath parent x) = true := by
              intro x hx
              exact ⟨(hxs0 x hx).1, (hxs0 x hx).2⟩
            simp only [get_parameters_loop, expectedCore, if_neg hnp, if_pos hp, if_pos rfl,
              cubemapItems, hlen, ne_eq, not_true_eq_false, if_false, cubemapStrings]
            rw [cubemapLoop_all_files fs parent xs 0 [] ok prints hxs2]
            simp only [List.nil_append]
            exact ih _ _ _ hrest
        · cases v with
          | s str =>
            simp [validEntry, hp, hcm] at hkv
            obtain ⟨hne, hex⟩ := hkv
            have hex2 : (fs.isFile (joinPath parent str) || fs.isDir (joinPath parent str)) = true := by
              rcases hex with h2 | h2 <;> simp [h2]
            simp only [get_parameters_loop, expectedCore, if_neg hnp, if_pos hp, if_neg hcm,
              if_neg hne, jstringOf]
            rw [if_pos hex2]
            exact ih _ _ _ hrest
          | b bv => simp [validEntry, hp, hcm] at hkv
          | l xs => simp [validEntry, hp, hcm] at hkv
      · simp only [get_parameters_loop, expectedCore, if_neg hnp, if_neg hp]
        exact ih _ _ _ hrest

/-- Claim C2: for every valid parameter file, `get_parameters` returns
`paths_ok = True` together with the expected dictionary — non-path keys
copied verbatim, path keys resolved against the JSON file's parent
directory, unknown keys dropped, an `object` entry always present
(defaulting to `'Boy'`), and a non-empty `surface_name` overriding the
object entry — and prints nothing. -/
theorem get_parameters_valid_file :
    ∀ (fs : FS) (content : String → List (String × JValue)) (fnPath surfaceName : String),
      validParamFile fs fnPath (content fnPath) = true →
      get_parameters fs content fnPath surfaceName =
        .ok (true, expectedParameters (parentDir fnPath) surfaceName (content fnPath), []) ∧
      ∃ v, getParam (expectedParameters (parentDir fnPath) surfaceName (content fnPath))
             ("object") = some v := by
  intro fs content fnPath surfaceName hvalid
  simp only [validParamFile, Bool.and_eq_true, List.all_eq_true] at hvalid
  obtain ⟨hfile, hitems⟩ := hvalid
  have hloop := get_parameters_loop_all_valid fs (parentDir fnPath) (content fnPath) [] true []
    (fun kv h2 => hitems kv h2)
  constructor
  · simp only [get_parameters, hfile, if_true]
    rw [hloop]
    simp only [expectedParameters, apply_object_default]
    cases hg : getParam (expectedCore (parentDir fnPath) (content fnPath) []) ("object") with
    | none => by_cases hs : surfaceName = ("") <;> simp [hg, hs]
    | some v => cases htr : v.truthy <;> by_cases hs : surfaceName = ("") <;> simp [hg, htr, hs]
  · simp only [expectedParameters]
    cases hg : getParam (expectedCore (parentDir fnPath) (content fnPath) []) ("object") with
    | none =>
      by_cases hs : surfaceName = ("") <;> simp [hg, hs, getParam_setParam_self]
    | some v =>
      cases htr : v.truthy <;> by_cases hs : surfaceName = ("") <;>
        simp [hg, htr, hs, getParam_setParam_self]

/-- Witness for C2: a concrete valid parameter file produces
`paths_ok = True` and the expected dictionary. -/
theorem get_parameters_valid_file_witness :
    validParamFile fsValid ("d/p.json") (contentValid ("d/p.json")) = true ∧
    get_parameters fsValid contentValid ("d/p.json") ("") =
      .ok (true, expectedParameters (parentDir ("d/p.json")) ("") (contentValid ("d/p.json")), []) :=
  ⟨by decide,
   (get_parameters_valid_file fsValid contentValid ("d/p.json") ("") (by decide)).1⟩
